import Mathlib

/-!
Verification of the multi-provider analysis pipeline of the
Local-AI-meeting-assistant repository.

The development shallowly embeds `services/geminiService.ts` (the transcript
formatter, prompt builders, the four provider adapters and the
`analyzeTranscript` dispatcher) together with the input gates of `App.tsx`
and `components/AnalysisPanel.tsx`.  Network I/O is modelled by an explicit
oracle (`Network`), and every embedded operation additionally reports the
list of network calls it issued, so that "zero HTTP requests" style
properties are statable.  ECMAScript platform primitives used by the code
(`JSON.parse`, `JSON.stringify`, `String.prototype.trim`,
`Array.prototype.join`, property access, string coercion) are modelled by
executable Lean functions below.
-/

set_option maxRecDepth 10000

namespace MeetingAssistant

/-- JSON values, modelling ECMAScript values produced by `JSON.parse`.
Numbers are modelled as rationals; the JSON texts handled by the claims
contain no fractional numbers, and the embedded parser covers the integer
fragment. -/
inductive Json where
  | null : Json
  | bool (b : Bool) : Json
  | num (n : Rat) : Json
  | str (s : String) : Json
  | arr (elements : List Json) : Json
  | obj (fields : List (String × Json)) : Json

/-- Characters matched by the JavaScript regular-expression class `\s`
(restricted to the ASCII range, which covers all inputs appearing here). -/
def jsWs (c : Char) : Bool :=
  c = ' ' || c = '\t' || c = '\n' || c = '\r' || c = '\x0b' || c = '\x0c'

/-- Model of `String.prototype.trim` on the underlying character list. -/
def jsTrimData (cs : List Char) : List Char :=
  ((cs.dropWhile jsWs).reverse.dropWhile jsWs).reverse

/-- Model of `String.prototype.trim`. -/
def jsTrim (s : String) : String := ⟨jsTrimData s.data⟩

/-- Whitespace accepted between tokens by `JSON.parse`. -/
def jsonWs (c : Char) : Bool :=
  c = ' ' || c = '\t' || c = '\n' || c = '\r'

/-- Value of a hexadecimal digit, for `\uXXXX` string escapes. -/
def hexVal (c : Char) : Option Nat :=
  if '0' ≤ c ∧ c ≤ '9' then some (c.toNat - 48)
  else if 'a' ≤ c ∧ c ≤ 'f' then some (c.toNat - 87)
  else if 'A' ≤ c ∧ c ≤ 'F' then some (c.toNat - 55)
  else none

/-- Parse the body of a JSON string literal (the opening quote already
consumed), returning the decoded string and the remaining input. -/
def parseStringBody : List Char → Option (String × List Char)
  | [] => none
  | c :: cs =>
    if c = '"' then some ("", cs)
    else if c = '\\' then
      match cs with
      | [] => none
      | e :: cs2 =>
        if e = 'u' then
          match cs2 with
          | a :: b :: c3 :: d :: rest =>
            match hexVal a, hexVal b, hexVal c3, hexVal d with
            | some ha, some hb, some hc, some hd =>
              match parseStringBody rest with
              | none => none
              | some (s, rem) =>
                some (⟨Char.ofNat (((ha * 16 + hb) * 16 + hc) * 16 + hd) :: s.data⟩, rem)
            | _, _, _, _ => none
          | _ => none
        else
          let dec : Option Char :=
            if e = '"' then some '"'
            else if e = '\\' then some '\\'
            else if e = '/' then some '/'
            else if e = 'n' then some '\n'
            else if e = 't' then some '\t'
            else if e = 'r' then some '\r'
            else if e = 'b' then some '\x08'
            else if e = 'f' then some '\x0c'
            else none
          match dec with
          | none => none
          | some ch =>
            match parseStringBody cs2 with
            | none => none
            | some (s, rem) => some (⟨ch :: s.data⟩, rem)
    else
      match parseStringBody cs with
      | none => none
      | some (s, rem) => some (⟨c :: s.data⟩, rem)

/-- Numeric value of a list of decimal digit characters. -/
def digitsVal (ds : List Char) : Nat :=
  ds.foldl (fun a c => a * 10 + (c.toNat - 48)) 0

/-- Parse a JSON integer numeral (the fragment of JSON numbers needed
here; none of the payloads in this development contain numbers). -/
def parseNum : List Char → Option (Json × List Char)
  | '-' :: rest =>
    let ds := rest.takeWhile Char.isDigit
    if ds.isEmpty then none
    else some (.num (-(digitsVal ds : Int) : Int), rest.drop ds.length)
  | cs =>
    let ds := cs.takeWhile Char.isDigit
    if ds.isEmpty then none
    else some (.num ((digitsVal ds : Int) : Rat), cs.drop ds.length)

mutual

/-- Fuel-indexed JSON value parser (model of the grammar accepted by
`JSON.parse`). -/
def parseVal : Nat → List Char → Option (Json × List Char)
  | 0, _ => none
  | fuel + 1, cs0 =>
    match cs0.dropWhile jsonWs with
    | [] => none
    | c :: rest =>
      if c = '{' then
        match rest.dropWhile jsonWs with
        | '}' :: rem => some (.obj [], rem)
        | _ => parseMembers fuel rest []
      else if c = '[' then
        match rest.dropWhile jsonWs with
        | ']' :: rem => some (.arr [], rem)
        | _ => parseElements fuel rest []
      else if c = '"' then
        match parseStringBody rest with
        | some (s, rem) => some (.str s, rem)
        | none => none
      else if c = 't' then
        if rest.take 3 = ['r', 'u', 'e'] then some (.bool true, rest.drop 3) else none
      else if c = 'f' then
        if rest.take 4 = ['a', 'l', 's', 'e'] then some (.bool false, rest.drop 4) else none
      else if c = 'n' then
        if rest.take 3 = ['u', 'l', 'l'] then some (.null, rest.drop 3) else none
      else parseNum (c :: rest)

/-- Members of a JSON object (after the opening brace). -/
def parseMembers : Nat → List Char → List (String × Json) → Option (Json × List Char)
  | 0, _, _ => none
  | fuel + 1, cs, acc =>
    match cs.dropWhile jsonWs with
    | '"' :: rest =>
      match parseStringBody rest with
      | none => none
      | some (key, afterKey) =>
        match afterKey.dropWhile jsonWs with
        | ':' :: afterColon =>
          match parseVal fuel afterColon with
          | none => none
          | some (v, afterVal) =>
            match afterVal.dropWhile jsonWs with
            | ',' :: next => parseMembers fuel next (acc ++ [(key, v)])
            | '}' :: rem => some (.obj (acc ++ [(key, v)]), rem)
            | _ => none
        | _ => none
    | _ => none

/-- Elements of a JSON array (after the opening bracket). -/
def parseElements : Nat → List Char → List Json → Option (Json × List Char)
  | 0, _, _ => none
  | fuel + 1, cs, acc =>
    match parseVal fuel cs with
    | none => none
    | some (v, afterVal) =>
      match afterVal.dropWhile jsonWs with
      | ',' :: next => parseElements fuel next (acc ++ [v])
      | ']' :: rem => some (.arr (acc ++ [v]), rem)
      | _ => none

end

/-- Model of `JSON.parse` applied to a string: `none` models a thrown
`SyntaxError`.  The fuel is generous for every input considered here
(each recursive step consumes at least one input character). -/
def jsonParse (s : String) : Option Json :=
  match parseVal (s.length + 8) s.data with
  | some (v, rest) => if rest.dropWhile jsonWs = [] then some v else none
  | none => none

/-- Model of `Array.prototype.join(sep)`: elements interleaved with the
separator (the elements here are always strings already). -/
def joinSep (sep : String) : List String → String
  | [] => ""
  | [x] => x
  | x :: xs => x ++ sep ++ joinSep sep xs

/-- Display form of a JSON number under ECMAScript `ToString`.  Integers
render exactly; non-integral rationals (which never occur in the payloads
of this development) are rendered as a fraction. -/
def ratToDisplay (n : Rat) : String :=
  if n.den = 1 then toString n.num else toString n.num ++ "/" ++ toString n.den

/-- Model of ECMAScript `ToString` on a `JSON.parse` result (used where the
code passes a parsed value to a string-consuming primitive).  The fuel
bounds array nesting; depth 16 covers every value in this development.
Inside `Array.prototype.toString`, `null` elements print empty. -/
def jsToStringFuel : Nat → Json → String
  | _, .null => "null"
  | _, .bool true => "true"
  | _, .bool false => "false"
  | _, .num n => ratToDisplay n
  | _, .str s => s
  | _, .obj _ => "[object Object]"
  | 0, .arr _ => ""
  | fuel + 1, .arr xs =>
    joinSep "," (xs.map (fun j =>
      match j with
      | .null => ""
      | v => jsToStringFuel fuel v))

/-- ECMAScript `ToString` of a parsed JSON value. -/
def jsDisplay (j : Json) : String := jsToStringFuel 16 j

/-- ECMAScript truthiness of a parsed JSON value. -/
def jsTruthy : Json → Bool
  | .null => false
  | .bool b => b
  | .num n => if n = 0 then false else true
  | .str s => if s = "" then false else true
  | .arr _ => true
  | .obj _ => true

/-- Last-wins field lookup, matching how `JSON.parse` materialises
duplicate keys on an object. -/
def lookupField (fields : List (String × Json)) (key : String) : Option Json :=
  ((fields.reverse).find? (fun kv => kv.1 == key)).map (fun kv => kv.2)

/-- Thrown JavaScript errors, as far as the embedded code distinguishes
them: `error m` is `new Error(m)`; `typeError` models property access on
`undefined`/`null` (and method calls on values lacking the method);
`syntaxError` models a `JSON.parse` failure.  The engine-generated message
texts of the latter two are not modelled. -/
inductive JsError where
  | error (message : String) : JsError
  | typeError : JsError
  | syntaxError : JsError
  deriving DecidableEq

/-- Model of the property access `v.key` on a parsed JSON value: access on
`null` throws a `TypeError`; objects look the key up; an array supports the
(only) index used by the code, `0`; every other access yields `undefined`
(modelled as `none`). -/
def jsDot : Json → String → Except JsError (Option Json)
  | .null, _ => .error .typeError
  | .obj fields, key => .ok (lookupField fields key)
  | .arr xs, key => .ok (if key = "0" then xs.head? else none)
  | _, _ => .ok none

/-- Model of `JSON.parse(x)` where `x` is a possibly-`undefined`
JavaScript value: the argument is coerced to a string first
(`JSON.parse(undefined)` parses the text "undefined" and throws a
`SyntaxError`). -/
def jsonParseCoerced (v : Option Json) : Except JsError Json :=
  match v with
  | none => .error .syntaxError
  | some j =>
    match jsonParse (jsDisplay j) with
    | none => .error .syntaxError
    | some r => .ok r

/-! ## Data model (`types.ts`) and the transport layer -/

/-- `TranscriptEntry` from `types.ts`. -/
structure TranscriptEntry where
  timestamp : String
  speaker : String
  text : String
  deriving DecidableEq

/-- `LlmSettings` from `types.ts`.  The `provider` field is a string: the
TypeScript union `ModelProvider` erases at runtime, and the dispatcher's
`switch` has a `default` branch reachable by other strings. -/
structure LlmSettings where
  provider : String
  openAiApiKey : String
  ollamaUrl : String
  ollamaModel : String
  lmStudioUrl : String
  deriving DecidableEq

/-- An HTTP request as issued through `fetch`.  The body is kept as the
object passed to `JSON.stringify`; serialisation happens at the transport
boundary and is injective on the values built here. -/
structure HttpRequest where
  url : String
  method : String
  headers : List (String × String)
  body : Json

/-- An HTTP response as observed by the adapters: `ok` is
`Response.ok`, and `bodyText` is the raw body (`response.text()`;
`response.json()` is modelled as `jsonParse bodyText`). -/
structure HttpResponse where
  ok : Bool
  bodyText : String

/-- Response of the Gemini SDK call `ai.models.generateContent`. -/
structure GeminiResponse where
  text : String

/-- One outgoing network call: either a `fetch`, or a Gemini SDK
content-generation call (model, contents and response schema). -/
inductive NetCall where
  | http (request : HttpRequest) : NetCall
  | geminiGenerate (model : String) (contents : String) (responseSchema : Json) : NetCall

/-- The network oracle: what each issued call returns in a given run. -/
structure Network where
  fetch : HttpRequest → HttpResponse
  geminiGenerate : String → String → GeminiResponse

/-- The Gemini SDK client constructed at module load from the
environment-sourced API key. -/
structure GoogleGenAI where
  apiKey : String
  deriving DecidableEq

/-! ## `services/geminiService.ts` -/

/-- Module-level initialisation of `services/geminiService.ts`: the API key
is read from `process.env.API_KEY` (absent ↦ `none`) and the module throws
on any falsy value before the client `ai` is constructed, so no function of
the module (in particular `analyzeTranscript`) can run without it.  All
embedded functions below that use the client take the successfully built
`GoogleGenAI` as an argument. -/
def geminiModuleInit (envApiKey : Option String) : Except JsError GoogleGenAI :=
  match envApiKey with
  | none => .error (.error "API_KEY environment variable not set")
  | some k =>
    if k = "" then .error (.error "API_KEY environment variable not set")
    else .ok ⟨k⟩

/-- The fixed Gemini model identifier. -/
def geminiModel : String := "gemini-2.5-flash"

/-- The per-entry line of `formatTranscript`. -/
def formatEntry (entry : TranscriptEntry) : String :=
  "[" ++ entry.timestamp ++ "] " ++ entry.speaker ++ ": " ++ entry.text

/-- `formatTranscript`: one line per entry joined by a newline. -/
def formatTranscript (transcript : List TranscriptEntry) : String :=
  joinSep "\n" (transcript.map formatEntry)

/-- The `analysisSchema` constant (the `Type` enum values of the SDK
serialise as the strings "OBJECT", "STRING", "ARRAY"). -/
def analysisSchema : Json :=
  .obj [
    ("type", .str "OBJECT"),
    ("properties", .obj [
      ("summary", .obj [
        ("type", .str "STRING"),
        ("description", .str "A concise summary of the meeting\x27s key discussions and decisions.")]),
      ("actionItems", .obj [
        ("type", .str "ARRAY"),
        ("description", .str "A list of clear action items."),
        ("items", .obj [
          ("type", .str "OBJECT"),
          ("properties", .obj [
            ("task", .obj [
              ("type", .str "STRING"),
              ("description", .str "The specific action item.")]),
            ("owner", .obj [
              ("type", .str "STRING"),
              ("description", .str "The person or team responsible (e.g., \x27Speaker 1\x27, \x27Engineering Team\x27). If not mentioned, use \x27Unassigned\x27.")])]),
          ("required", .arr [.str "task", .str "owner"])])]),
      ("missingPoints", .obj [
        ("type", .str "ARRAY"),
        ("description", .str "A list of points from the checklist that were not discussed."),
        ("items", .obj [
          ("type", .str "OBJECT"),
          ("properties", .obj [
            ("point", .obj [
              ("type", .str "STRING"),
              ("description", .str "The checklist item that was missed.")]),
            ("recommendation", .obj [
              ("type", .str "STRING"),
              ("description", .str "A brief suggestion on how to address this.")])]),
          ("required", .arr [.str "point", .str "recommendation"])])])]),
    ("required", .arr [.str "summary", .str "actionItems", .str "missingPoints"])]

/-- One hexadecimal digit, lower case, for JSON string escapes. -/
def hexDigitChar (n : Nat) : Char :=
  if n < 10 then Char.ofNat (48 + n) else Char.ofNat (87 + n)

/-- Escape of a single character inside a JSON string literal, as produced
by `JSON.stringify`. -/
def escapeJsonChar (c : Char) : String :=
  if c = '"' then "\\\""
  else if c = '\\' then "\\\\"
  else if c = '\n' then "\\n"
  else if c = '\r' then "\\r"
  else if c = '\t' then "\\t"
  else if c = '\x08' then "\\b"
  else if c = '\x0c' then "\\f"
  else if c.toNat < 32 then
    "\\u00" ++ ⟨[hexDigitChar (c.toNat / 16), hexDigitChar (c.toNat % 16)]⟩
  else ⟨[c]⟩

/-- JSON string literal for `s`, as produced by `JSON.stringify`. -/
def quoteJson (s : String) : String :=
  "\"" ++ String.join (s.data.map escapeJsonChar) ++ "\""

/-- A run of `n` spaces. -/
def pad (n : Nat) : String := ⟨List.replicate n ' '⟩

/-- Model of `JSON.stringify(v, null, 2)` (two-space pretty printing).
The fuel bounds nesting depth and is ample for `analysisSchema`, the only
value the code stringifies. -/
def stringifyIndent : Nat → Nat → Json → String
  | _, _, .null => "null"
  | _, _, .bool true => "true"
  | _, _, .bool false => "false"
  | _, _, .num n => ratToDisplay n
  | _, _, .str s => quoteJson s
  | 0, _, .arr _ => ""
  | 0, _, .obj _ => ""
  | fuel + 1, ind, .arr xs =>
    match xs with
    | [] => "[]"
    | _ =>
      "[\n" ++
        joinSep ",\n" (xs.map (fun x => pad (ind + 2) ++ stringifyIndent fuel (ind + 2) x)) ++
        "\n" ++ pad ind ++ "]"
  | fuel + 1, ind, .obj fs =>
    match fs with
    | [] => "\x7b\x7d"
    | _ =>
      "\x7b\n" ++
        joinSep ",\n" (fs.map (fun kv =>
          pad (ind + 2) ++ quoteJson kv.1 ++ ": " ++ stringifyIndent fuel (ind + 2) kv.2)) ++
        "\n" ++ pad ind ++ "\x7d"

/-- `JSON.stringify(analysisSchema, null, 2)` as used in the prompts. -/
def analysisSchemaText : String := stringifyIndent 32 0 analysisSchema

/-- `getBasePrompt`: the provider-neutral instruction template. -/
def getBasePrompt (formattedTranscript : String) (checklist : String) : String :=
  "\n  You are an expert AI meeting assistant specializing in technical reviews.\n  Analyze the following meeting transcript based on the provided technical review checklist.\n\n  **Meeting Transcript:**\n  "
    ++ formattedTranscript ++
  "\n\n  **Technical Review Checklist:**\n  "
    ++ checklist ++
  "\n\n  Your task is to generate a summary of the meeting, identify clear action items with owners, and list any points from the checklist that were not discussed.\n\n  Provide your response as a single JSON object that adheres to the provided schema. Do not include any markdown formatting like ```json.\n"

/-- `getJsonSchemaPrompt`: the textual schema appended for backends with no
native schema constraint. -/
def getJsonSchemaPrompt : String :=
  "\n  The JSON schema for your response is as follows:\n  " ++ analysisSchemaText ++ "\n"

/-- The system prompt of `analyzeWithOpenAI`. -/
def openAiSystemPrompt : String :=
  "You are an expert AI meeting assistant. Your response must be a single valid JSON object, without any markdown formatting. The required JSON schema is: "
    ++ analysisSchemaText

/-- The system prompt of `analyzeWithLmStudio` (textually identical to the
OpenAI one in the source, but a distinct literal there). -/
def lmStudioSystemPrompt : String :=
  "You are an expert AI meeting assistant. Your response must be a single valid JSON object, without any markdown formatting. The required JSON schema is: "
    ++ analysisSchemaText

/-- `errorData.error?.message || 'Unknown error'` applied to a non-2xx
response body, after `await response.json()` (which throws a `SyntaxError`
on an unparseable body). -/
def httpErrorMessage (bodyText : String) : Except JsError String :=
  match jsonParse bodyText with
  | none => .error .syntaxError
  | some errorData => do
    let errField ← jsDot errorData "error"
    match errField with
    | none => .ok "Unknown error"
    | some .null => .ok "Unknown error"
    | some errValue => do
      let msgField ← jsDot errValue "message"
      match msgField with
      | none => .ok "Unknown error"
      | some m => .ok (if jsTruthy m then jsDisplay m else "Unknown error")

/-- The unwrap chain `data.choices[0].message.content` shared by the OpenAI
and LM Studio adapters.  A `none` result is JavaScript `undefined`. -/
def chatContentOf (data : Json) : Except JsError (Option Json) := do
  let choicesField ← jsDot data "choices"
  match choicesField with
  | none => .error .typeError
  | some choices => do
    let firstElem ← jsDot choices "0"
    match firstElem with
    | none => .error .typeError
    | some elt => do
      let msgField ← jsDot elt "message"
      match msgField with
      | none => .error .typeError
      | some msg => jsDot msg "content"

/-- The Gemini-path parse of the response text: `text.trim()` fed straight
to `JSON.parse` — no fence stripping on this path.  The parsed value is
returned with an unchecked `as AnalysisResult` cast, embedded as the raw
`Json`. -/
def geminiParseText (s : String) : Except JsError Json :=
  match jsonParse (jsTrim s) with
  | none => .error .syntaxError
  | some j => .ok j

/-- `analyzeWithGemini`: SDK call with the native response schema, then
`response.text.trim()` fed to `JSON.parse`. -/
def analyzeWithGemini (ai : GoogleGenAI) (net : Network)
    (transcript : List TranscriptEntry) (checklist : String) :
    List NetCall × Except JsError Json :=
  let _ := ai
  let prompt := getBasePrompt (formatTranscript transcript) checklist
  let response := net.geminiGenerate geminiModel prompt
  ([.geminiGenerate geminiModel prompt analysisSchema],
    geminiParseText response.text)

/-- The request built by `analyzeWithOpenAI`. -/
def openAiRequest (settings : LlmSettings) (transcript : List TranscriptEntry)
    (checklist : String) : HttpRequest :=
  let userPrompt := getBasePrompt (formatTranscript transcript) checklist
  { url := "https://api.openai.com/v1/chat/completions"
    method := "POST"
    headers := [("Content-Type", "application/json"),
                ("Authorization", "Bearer " ++ settings.openAiApiKey)]
    body := .obj [
      ("model", .str "gpt-4o"),
      ("messages", .arr [
        .obj [("role", .str "system"), ("content", .str openAiSystemPrompt)],
        .obj [("role", .str "user"), ("content", .str userPrompt)]]),
      ("response_format", .obj [("type", .str "json_object")])] }

/-- `analyzeWithOpenAI`: config gate, one `fetch`, error unwrapping for
non-2xx, then `JSON.parse(data.choices[0].message.content)` with the
unchecked result cast. -/
def analyzeWithOpenAI (net : Network) (transcript : List TranscriptEntry)
    (checklist : String) (settings : LlmSettings) :
    List NetCall × Except JsError Json :=
  if settings.openAiApiKey = "" then
    ([], .error (.error "OpenAI API Key is not configured."))
  else
    let req := openAiRequest settings transcript checklist
    let response := net.fetch req
    ([.http req],
      if response.ok = false then
        match httpErrorMessage response.bodyText with
        | .error e => .error e
        | .ok msg => .error (.error ("OpenAI API error: " ++ msg))
      else
        match jsonParse response.bodyText with
        | none => .error .syntaxError
        | some data =>
          match chatContentOf data with
          | .error e => .error e
          | .ok content => jsonParseCoerced content)

/-- The user prompt of the Ollama adapter: base prompt plus the textual
schema description. -/
def ollamaUserPrompt (transcript : List TranscriptEntry) (checklist : String) : String :=
  getBasePrompt (formatTranscript transcript) checklist ++ "\n\n" ++ getJsonSchemaPrompt

/-- The request built by `analyzeWithOllama`. -/
def ollamaRequest (settings : LlmSettings) (transcript : List TranscriptEntry)
    (checklist : String) : HttpRequest :=
  { url := settings.ollamaUrl ++ "/api/chat"
    method := "POST"
    headers := [("Content-Type", "application/json")]
    body := .obj [
      ("model", .str settings.ollamaModel),
      ("messages", .arr [
        .obj [("role", .str "user"), ("content", .str (ollamaUserPrompt transcript checklist))]]),
      ("format", .str "json"),
      ("stream", .bool false)] }

/-- `analyzeWithOllama`: config gate, one `fetch` to `{ollamaUrl}/api/chat`,
plain-text error embedding for non-2xx, then
`JSON.parse(data.message.content)` with the unchecked result cast. -/
def analyzeWithOllama (net : Network) (transcript : List TranscriptEntry)
    (checklist : String) (settings : LlmSettings) :
    List NetCall × Except JsError Json :=
  if settings.ollamaUrl = "" || settings.ollamaModel = "" then
    ([], .error (.error "Ollama URL or model name is not configured."))
  else
    let req := ollamaRequest settings transcript checklist
    let response := net.fetch req
    ([.http req],
      if response.ok = false then
        .error (.error ("Ollama API error: " ++ response.bodyText))
      else
        match jsonParse response.bodyText with
        | none => .error .syntaxError
        | some data =>
          match (do
            let msgField ← jsDot data "message"
            match msgField with
            | none => Except.error JsError.typeError
            | some msg => jsDot msg "content") with
          | .error e => .error e
          | .ok content => jsonParseCoerced content)

/-- Model of `jsonText.replace(/^```json\s*|```\s*$/g, '')` on inputs where
each alternative matches at most once (true of every fenced or bare body
here): one leading `3 backticks + json + whitespace` marker and one
`3 backticks + trailing whitespace` suffix are removed when present. -/
def stripLeadFence (cs : List Char) : List Char :=
  if cs.take 7 = "```json".data then (cs.drop 7).dropWhile jsWs else cs

/-- Trailing part of the fence-stripping regular expression. -/
def stripTrailFence (cs : List Char) : List Char :=
  let r := cs.reverse.dropWhile jsWs
  if r.take 3 = "```".data then (r.drop 3).reverse else cs

/-- `cleanJsonText` of the LM Studio adapter: fence markers stripped, then
`trim()`. -/
def lmStudioClean (s : String) : String :=
  ⟨jsTrimData (stripTrailFence (stripLeadFence s.data))⟩

/-- The LM Studio parse of a (string) message content: stripped and then
`JSON.parse`d, with the unchecked result cast. -/
def lmStudioParseContent (s : String) : Except JsError Json :=
  match jsonParse (lmStudioClean s) with
  | none => .error .syntaxError
  | some j => .ok j

/-- The request built by `analyzeWithLmStudio`. -/
def lmStudioRequest (settings : LlmSettings) (transcript : List TranscriptEntry)
    (checklist : String) : HttpRequest :=
  { url := settings.lmStudioUrl ++ "/v1/chat/completions"
    method := "POST"
    headers := [("Content-Type", "application/json")]
    body := .obj [
      ("model", .str "local-model"),
      ("messages", .arr [
        .obj [("role", .str "system"), ("content", .str lmStudioSystemPrompt)],
        .obj [("role", .str "user"),
              ("content", .str (getBasePrompt (formatTranscript transcript) checklist))]]),
      ("temperature", .num ((7 : Rat) / 10))] }

/-- `analyzeWithLmStudio`: config gate, one `fetch`, error unwrapping for
non-2xx, then the fence-stripping parse of `choices[0].message.content`
(`.replace` on a non-string content throws a `TypeError`). -/
def analyzeWithLmStudio (net : Network) (transcript : List TranscriptEntry)
    (checklist : String) (settings : LlmSettings) :
    List NetCall × Except JsError Json :=
  if settings.lmStudioUrl = "" then
    ([], .error (.error "LM Studio URL is not configured."))
  else
    let req := lmStudioRequest settings transcript checklist
    let response := net.fetch req
    ([.http req],
      if response.ok = false then
        match httpErrorMessage response.bodyText with
        | .error e => .error e
        | .ok msg => .error (.error ("LM Studio API error: " ++ msg))
      else
        match jsonParse response.bodyText with
        | none => .error .syntaxError
        | some data =>
          match chatContentOf data with
          | .error e => .error e
          | .ok none => .error .typeError
          | .ok (some (.str s)) => lmStudioParseContent s
          | .ok (some _) => .error .typeError)

/-- The uniform outer failure message thrown by the dispatcher. -/
def failMessage (provider : String) : String :=
  "Failed to get analysis from " ++ provider ++
    ". Please check your settings and the console for details."

/-- The `try`/`catch` of the dispatcher: a successful adapter result passes
through; any thrown error is logged to the console (not modelled) and
replaced by the uniform outer error for the active provider. -/
def wrapDispatch (provider : String) :
    List NetCall × Except JsError Json → List NetCall × Except JsError Json
  | (trace, .ok v) => (trace, .ok v)
  | (trace, .error _) => (trace, .error (.error (failMessage provider)))

/-- `analyzeTranscript`: the dispatcher.  Selects the adapter by
`settings.provider` (reaching the `default` throw for any other string),
and its `catch` replaces every inner failure by the uniform outer error;
the inner error is only written to the console.  The first component is the
list of network calls issued during the call. -/
def analyzeTranscript (ai : GoogleGenAI) (net : Network)
    (transcript : List TranscriptEntry) (checklist : String)
    (settings : LlmSettings) : List NetCall × Except JsError Json :=
  wrapDispatch settings.provider
    (if settings.provider = "gemini" then analyzeWithGemini ai net transcript checklist
     else if settings.provider = "openai" then analyzeWithOpenAI net transcript checklist settings
     else if settings.provider = "ollama" then analyzeWithOllama net transcript checklist settings
     else if settings.provider = "lmstudio" then analyzeWithLmStudio net transcript checklist settings
     else ([], .error (.error ("Unsupported model provider: " ++ settings.provider))))

/-! ## The calling UI (`App.tsx` and `components/AnalysisPanel.tsx`) -/

/-- The message shown for a caught error: `e.message || fallback`.  The
engine-generated messages of `TypeError`/`SyntaxError` are abstracted by
their class names; both are non-empty, as the fallback only needs
falsiness. -/
def errorDisplayMessage : JsError → String
  | .error m =>
    if m = "" then "Failed to analyze transcript. Please check the console for details." else m
  | .typeError => "TypeError"
  | .syntaxError => "SyntaxError"

/-- `handleReview` from `App.tsx`: a `null` or empty transcript sets a
validation error and returns without calling `analyzeTranscript`.
Result: (error state, network calls issued, analysis result state). -/
def handleReview (ai : GoogleGenAI) (net : Network)
    (transcript : Option (List TranscriptEntry)) (checklist : String)
    (settings : LlmSettings) : Option String × List NetCall × Option Json :=
  match transcript with
  | none => (some "A transcript must be available before analysis.", [], none)
  | some t =>
    if t.length = 0 then
      (some "A transcript must be available before analysis.", [], none)
    else
      match analyzeTranscript ai net t checklist settings with
      | (trace, .ok v) => (none, trace, some v)
      | (trace, .error e) => (some (errorDisplayMessage e), trace, none)

/-- The submit gate of `AnalysisPanel.tsx`: `onReview` is invoked only when
`checklist.trim()` is truthy (non-empty). -/
def analysisPanelSubmitsReview (checklist : String) : Bool :=
  if jsTrim checklist = "" then false else true

/-! ## State-threaded (frame) embedding

The pipeline is re-traced with the caller-owned inputs threaded through
explicitly, one step per source operation that receives them.  Every
primitive the source applies to its inputs (`Array.prototype.map`,
`Array.prototype.join`, template-literal interpolation, `JSON.stringify`,
property reads, `fetch` with a fresh body object) returns a fresh value
and leaves its receiver and arguments untouched per ECMA-262, which is
what each step below records by passing the received values back. -/

/-- `formatTranscript` with the received entry list threaded through:
`map` and `join` allocate fresh values and do not write to the entries or
the list. -/
def formatTranscriptSt (transcript : List TranscriptEntry) :
    String × List TranscriptEntry :=
  (joinSep "\n" (transcript.map formatEntry), transcript)

/-- `analyzeWithGemini` with its inputs threaded through. -/
def analyzeWithGeminiSt (ai : GoogleGenAI) (net : Network)
    (transcript : List TranscriptEntry) (checklist : String) :
    (List NetCall × Except JsError Json) × List TranscriptEntry × String :=
  let _ := ai
  let (formatted, transcript1) := formatTranscriptSt transcript
  let prompt := getBasePrompt formatted checklist
  let response := net.geminiGenerate geminiModel prompt
  (([.geminiGenerate geminiModel prompt analysisSchema],
    geminiParseText response.text), transcript1, checklist)

/-- `analyzeWithOpenAI` with its inputs threaded through. -/
def analyzeWithOpenAISt (net : Network) (transcript : List TranscriptEntry)
    (checklist : String) (settings : LlmSettings) :
    (List NetCall × Except JsError Json) × List TranscriptEntry × String × LlmSettings :=
  if settings.openAiApiKey = "" then
    (([], .error (.error "OpenAI API Key is not configured.")), transcript, checklist, settings)
  else
    let (formatted, transcript1) := formatTranscriptSt transcript
    let userPrompt := getBasePrompt formatted checklist
    let req : HttpRequest :=
      { url := "https://api.openai.com/v1/chat/completions"
        method := "POST"
        headers := [("Content-Type", "application/json"),
                    ("Authorization", "Bearer " ++ settings.openAiApiKey)]
        body := .obj [
          ("model", .str "gpt-4o"),
          ("messages", .arr [
            .obj [("role", .str "system"), ("content", .str openAiSystemPrompt)],
            .obj [("role", .str "user"), ("content", .str userPrompt)]]),
          ("response_format", .obj [("type", .str "json_object")])] }
    let response := net.fetch req
    (([.http req],
      if response.ok = false then
        match httpErrorMessage response.bodyText with
        | .error e => .error e
        | .ok msg => .error (.error ("OpenAI API error: " ++ msg))
      else
        match jsonParse response.bodyText with
        | none => .error .syntaxError
        | some data =>
          match chatContentOf data with
          | .error e => .error e
          | .ok content => jsonParseCoerced content), transcript1, checklist, settings)

/-- `analyzeWithOllama` with its inputs threaded through. -/
def analyzeWithOllamaSt (net : Network) (transcript : List TranscriptEntry)
    (checklist : String) (settings : LlmSettings) :
    (List NetCall × Except JsError Json) × List TranscriptEntry × String × LlmSettings :=
  if settings.ollamaUrl = "" || settings.ollamaModel = "" then
    (([], .error (.error "Ollama URL or model name is not configured.")), transcript, checklist, settings)
  else
    let (formatted, transcript1) := formatTranscriptSt transcript
    let userPrompt := getBasePrompt formatted checklist ++ "\n\n" ++ getJsonSchemaPrompt
    let req : HttpRequest :=
      { url := settings.ollamaUrl ++ "/api/chat"
        method := "POST"
        headers := [("Content-Type", "application/json")]
        body := .obj [
          ("model", .str settings.ollamaModel),
          ("messages", .arr [.obj [("role", .str "user"), ("content", .str userPrompt)]]),
          ("format", .str "json"),
          ("stream", .bool false)] }
    let response := net.fetch req
    (([.http req],
      if response.ok = false then
        .error (.error ("Ollama API error: " ++ response.bodyText))
      else
        match jsonParse response.bodyText with
        | none => .error .syntaxError
        | some data =>
          match (do
            let msgField ← jsDot data "message"
            match msgField with
            | none => Except.error JsError.typeError
            | some msg => jsDot msg "content") with
          | .error e => .error e
          | .ok content => jsonParseCoerced content), transcript1, checklist, settings)

/-- `analyzeWithLmStudio` with its inputs threaded through. -/
def analyzeWithLmStudioSt (net : Network) (transcript : List TranscriptEntry)
    (checklist : String) (settings : LlmSettings) :
    (List NetCall × Except JsError Json) × List TranscriptEntry × String × LlmSettings :=
  if settings.lmStudioUrl = "" then
    (([], .error (.error "LM Studio URL is not configured.")), transcript, checklist, settings)
  else
    let (formatted, transcript1) := formatTranscriptSt transcript
    let userPrompt := getBasePrompt formatted checklist
    let req : HttpRequest :=
      { url := settings.lmStudioUrl ++ "/v1/chat/completions"
        method := "POST"
        headers := [("Content-Type", "application/json")]
        body := .obj [
          ("model", .str "local-model"),
          ("messages", .arr [
            .obj [("role", .str "system"), ("content", .str lmStudioSystemPrompt)],
            .obj [("role", .str "user"), ("content", .str userPrompt)]]),
          ("temperature", .num ((7 : Rat) / 10))] }
    let response := net.fetch req
    (([.http req],
      if response.ok = false then
        match httpErrorMessage response.bodyText with
        | .error e => .error e
        | .ok msg => .error (.error ("LM Studio API error: " ++ msg))
      else
        match jsonParse response.bodyText with
        | none => .error .syntaxError
        | some data =>
          match chatContentOf data with
          | .error e => .error e
          | .ok none => .error .typeError
          | .ok (some (.str s)) => lmStudioParseContent s
          | .ok (some _) => .error .typeError), transcript1, checklist, settings)

/-- `analyzeTranscript` with its inputs threaded through the selected
adapter and back out of the `try`/`catch`. -/
def analyzeTranscriptSt (ai : GoogleGenAI) (net : Network)
    (transcript : List TranscriptEntry) (checklist : String)
    (settings : LlmSettings) :
    (List NetCall × Except JsError Json) × List TranscriptEntry × String × LlmSettings :=
  let (inner, rest) :
      (List NetCall × Except JsError Json) × List TranscriptEntry × String × LlmSettings :=
    if settings.provider = "gemini" then
      let (r, t1, c1) := analyzeWithGeminiSt ai net transcript checklist
      (r, t1, c1, settings)
    else if settings.provider = "openai" then
      analyzeWithOpenAISt net transcript checklist settings
    else if settings.provider = "ollama" then
      analyzeWithOllamaSt net transcript checklist settings
    else if settings.provider = "lmstudio" then
      analyzeWithLmStudioSt net transcript checklist settings
    else
      (([], .error (.error ("Unsupported model provider: " ++ settings.provider))),
        transcript, checklist, settings)
  (wrapDispatch settings.provider inner, rest)

/-! ## Lines of a string, for the formatter claims -/

/-- Split a character list at newline characters (the lines of a string:
a string with no newline is one line). -/
def splitNl : List Char → List (List Char)
  | [] => [[]]
  | c :: cs =>
    match splitNl cs with
    | [] => [[]]
    | line :: rest => if c = '\n' then [] :: line :: rest else (c :: line) :: rest

/-- No newline character occurs in the list. -/
def noNl (cs : List Char) : Bool := cs.all (fun c => c != '\n')

/-- No field of the entry contains a newline character. -/
def entryNewlineFree (e : TranscriptEntry) : Bool :=
  noNl e.timestamp.data && noNl e.speaker.data && noNl e.text.data

/-- The markdown-fence wrapping considered by the fence-stripping claim. -/
def fenceWrap (t : String) : String := "```json\n" ++ t ++ "\n```"

/-- Modelled from the spec (§4.4): the structural requirement the spec
places on a parsed result — `summary` a string, `actionItems` and
`missingPoints` sequences.  The code performs no such check; this
definition only serves to compare the spec requirement with what the code
returns. -/
def specRequiredShape (j : Json) : Bool :=
  match j with
  | .obj fields =>
    (match lookupField fields "summary" with
     | some (.str _) => true
     | _ => false)
    && (match lookupField fields "actionItems" with
        | some (.arr _) => true
        | _ => false)
    && (match lookupField fields "missingPoints" with
        | some (.arr _) => true
        | _ => false)
  | _ => false

/-! ## Concrete fixtures used by the claim witnesses and counterexamples -/

/-- A client as built by a successful module initialisation. -/
def ai0 : GoogleGenAI := ⟨"test-key"⟩

/-- A network oracle whose responses are never consulted on the paths it is
used for. -/
def netBlank : Network :=
  { fetch := fun _ => ⟨true, ""⟩, geminiGenerate := fun _ _ => ⟨""⟩ }

/-- The default provider settings of the application, switched to the
Ollama provider. -/
def settingsOllama : LlmSettings :=
  ⟨"ollama", "", "http://localhost:11434", "llama3", "http://localhost:1234"⟩

/-- A well-formed Ollama chat response body carrying a complete analysis
object. -/
def ollamaOkBody : String :=
  "\x7b\"message\":\x7b\"content\":\"\x7b\\\"summary\\\":\\\"s\\\",\\\"actionItems\\\":[],\\\"missingPoints\\\":[]\x7d\"\x7d\x7d"

/-- A network where every fetch returns 200 with `ollamaOkBody`. -/
def netOllamaOk : Network :=
  { fetch := fun _ => ⟨true, ollamaOkBody⟩, geminiGenerate := fun _ _ => ⟨""⟩ }

/-- A plain transcript entry. -/
def entryHello : TranscriptEntry := ⟨"00:00.000", "Speaker 1", "hello"⟩

/-- OpenAI settings with a non-blank key. -/
def settingsOpenAi : LlmSettings := ⟨"openai", "sk-test", "", "", ""⟩

/-- An OpenAI chat response whose message content is the JSON object with
a `summary` field only — missing `actionItems` and `missingPoints`. -/
def openAiPartialBody : String :=
  "\x7b\"choices\":[\x7b\"message\":\x7b\"content\":\"\x7b\\\"summary\\\":\\\"ok\\\"\x7d\"\x7d\x7d]\x7d"

/-- A network where every fetch returns 200 with `openAiPartialBody`. -/
def netOpenAiPartial : Network :=
  { fetch := fun _ => ⟨true, openAiPartialBody⟩, geminiGenerate := fun _ _ => ⟨""⟩ }

/-- OpenAI settings with a blank key. -/
def settingsOpenAiKeyBlank : LlmSettings := ⟨"openai", "", "", "", ""⟩

/-- Settings with an unrecognised provider string. -/
def settingsPigeon : LlmSettings := ⟨"carrier-pigeon", "", "", "", ""⟩

/-- Settings with every field blank. -/
def settingsAllBlank : LlmSettings := ⟨"", "", "", "", ""⟩

/-- A transcript entry whose text contains a newline character. -/
def entryMultiline : TranscriptEntry := ⟨"00:00.000", "Speaker 1", "line one\nline two"⟩

/-- The sample entry of the end-to-end scenario in the specification. -/
def entryScalability : TranscriptEntry :=
  ⟨"00:02.150", "Speaker 1", "Let\x27s discuss scalability."⟩

/-- The backtick character (written by code point). -/
def backtick : Char := Char.ofNat 96

/-! ## Supporting lemmas -/

theorem splitNl_ne_nil (cs : List Char) : splitNl cs ≠ [] := by
  induction cs with
  | nil => simp [splitNl]
  | cons c cs ih =>
    rcases h : splitNl cs with _ | ⟨line, rest⟩
    · simp [splitNl, h]
    · simp only [splitNl, h]
      split <;> simp

theorem splitNl_of_noNl (cs : List Char) (h : noNl cs = true) : splitNl cs = [cs] := by
  induction cs with
  | nil => rfl
  | cons c cs ih =>
    simp only [noNl, List.all_cons, Bool.and_eq_true, bne_iff_ne, ne_eq] at h
    have hrec := ih (by simpa [noNl] using h.2)
    simp [splitNl, hrec, h.1]

theorem splitNl_append_newline (xs ys : List Char) (h : noNl xs = true) :
    splitNl (xs ++ '\n' :: ys) = xs :: splitNl ys := by
  induction xs with
  | nil =>
    simp only [List.nil_append, splitNl]
    rcases hy : splitNl ys with _ | ⟨line, rest⟩
    · exact absurd hy (splitNl_ne_nil ys)
    · simp
  | cons c xs ih =>
    simp only [noNl, List.all_cons, Bool.and_eq_true, bne_iff_ne, ne_eq] at h
    have hrec := ih (by simpa [noNl] using h.2)
    simp [splitNl, hrec, h.1]

theorem data_joinSep_cons_cons (x y : String) (t : List String) :
    (joinSep "\n" (x :: y :: t)).data = x.data ++ '\n' :: (joinSep "\n" (y :: t)).data := by
  show (x ++ "\n" ++ joinSep "\n" (y :: t)).data = _
  simp [String.data_append]

theorem splitNl_joinSep (l : List String) (hne : l ≠ [])
    (h : ∀ s ∈ l, noNl s.data = true) :
    splitNl (joinSep "\n" l).data = l.map String.data := by
  induction l with
  | nil => exact absurd rfl hne
  | cons x xs ih =>
    cases xs with
    | nil =>
      simpa [joinSep] using splitNl_of_noNl x.data (h x (by simp))
    | cons y t =>
      rw [data_joinSep_cons_cons,
        splitNl_append_newline _ _ (h x (by simp)),
        ih (by simp) (fun s hs => h s (by simp [hs]))]
      simp

theorem noNl_formatEntry (e : TranscriptEntry) (h : entryNewlineFree e = true) :
    noNl (formatEntry e).data = true := by
  simp only [entryNewlineFree, Bool.and_eq_true] at h
  simp only [formatEntry, noNl, String.data_append, List.all_append]
  simp only [noNl] at h
  simp [h.1.1, h.1.2, h.2]

theorem analyzeWithGeminiSt_eq (ai : GoogleGenAI) (net : Network)
    (t : List TranscriptEntry) (c : String) :
    analyzeWithGeminiSt ai net t c = (analyzeWithGemini ai net t c, t, c) := rfl

theorem analyzeWithOpenAISt_eq (net : Network) (t : List TranscriptEntry)
    (c : String) (s : LlmSettings) :
    analyzeWithOpenAISt net t c s = (analyzeWithOpenAI net t c s, t, c, s) := by
  by_cases h : s.openAiApiKey = "" <;>
    simp [analyzeWithOpenAISt, analyzeWithOpenAI, openAiRequest, formatTranscriptSt,
      formatTranscript, h]

theorem analyzeWithOllamaSt_eq (net : Network) (t : List TranscriptEntry)
    (c : String) (s : LlmSettings) :
    analyzeWithOllamaSt net t c s = (analyzeWithOllama net t c s, t, c, s) := by
  by_cases h : (s.ollamaUrl = "" || s.ollamaModel = "") = true <;>
    simp [analyzeWithOllamaSt, analyzeWithOllama, ollamaRequest, ollamaUserPrompt,
      formatTranscriptSt, formatTranscript, h]

theorem analyzeWithLmStudioSt_eq (net : Network) (t : List TranscriptEntry)
    (c : String) (s : LlmSettings) :
    analyzeWithLmStudioSt net t c s = (analyzeWithLmStudio net t c s, t, c, s) := by
  by_cases h : s.lmStudioUrl = "" <;>
    simp [analyzeWithLmStudioSt, analyzeWithLmStudio, lmStudioRequest, formatTranscriptSt,
      formatTranscript, h]

theorem analyzeTranscriptSt_eq (ai : GoogleGenAI) (net : Network)
    (t : List TranscriptEntry) (c : String) (s : LlmSettings) :
    analyzeTranscriptSt ai net t c s = (analyzeTranscript ai net t c s, t, c, s) := by
  unfold analyzeTranscriptSt analyzeTranscript
  simp only [analyzeWithGeminiSt_eq, analyzeWithOpenAISt_eq, analyzeWithOllamaSt_eq,
    analyzeWithLmStudioSt_eq]
  split_ifs with h1 h2 h3 h4
  · rcases hr : analyzeWithGemini ai net t c with ⟨trace, r⟩
    cases r <;> simp [hr]
  · rcases hr : analyzeWithOpenAI net t c s with ⟨trace, r⟩
    cases r <;> simp [hr]
  · rcases hr : analyzeWithOllama net t c s with ⟨trace, r⟩
    cases r <;> simp [hr]
  · rcases hr : analyzeWithLmStudio net t c s with ⟨trace, r⟩
    cases r <;> simp [hr]
  · simp

theorem exists_head_cons (t : String) (h1 : t.data.head? = some '{') :
    ∃ cs2, t.data = '{' :: cs2 := by
  rcases hd : t.data with _ | ⟨a, tl⟩
  · rw [hd] at h1; simp at h1
  · rw [hd] at h1
    simp only [List.head?_cons, Option.some.injEq] at h1
    exact ⟨tl, by rw [h1]⟩

theorem exists_rev_cons (t : String) (h2 : t.data.getLast? = some '}') :
    ∃ r2, t.data.reverse = '}' :: r2 := by
  have hh : t.data.reverse.head? = some '}' := by
    rw [List.head?_reverse]; exact h2
  rcases hr : t.data.reverse with _ | ⟨b, tl⟩
  · rw [hr] at hh; simp at hh
  · rw [hr] at hh
    simp only [List.head?_cons, Option.some.injEq] at hh
    exact ⟨tl, by rw [hh]⟩

theorem take7_ne_fence (c : Char) (cs : List Char) (hc : c ≠ backtick) :
    ¬ ((c :: cs).take 7 = "```json".data) := by
  intro hEq
  have ha : ((c :: cs).take 7).head? = some c := rfl
  rw [hEq] at ha
  have hb : ("```json".data).head? = some backtick := rfl
  rw [hb] at ha
  exact hc (Option.some.inj ha).symm

theorem take3_ne_fence (c : Char) (cs : List Char) (hc : c ≠ backtick) :
    ¬ ((c :: cs).take 3 = "```".data) := by
  intro hEq
  have ha : ((c :: cs).take 3).head? = some c := rfl
  rw [hEq] at ha
  have hb : ("```".data).head? = some backtick := rfl
  rw [hb] at ha
  exact hc (Option.some.inj ha).symm

theorem lmStudioClean_bare (t : String) (h1 : t.data.head? = some '{')
    (h2 : t.data.getLast? = some '}') : lmStudioClean t = t := by
  obtain ⟨cs2, hcs⟩ := exists_head_cons t h1
  obtain ⟨r2, hrev⟩ := exists_rev_cons t h2
  have hlead : stripLeadFence t.data = t.data := by
    unfold stripLeadFence
    rw [hcs, if_neg (take7_ne_fence _ _ (by decide))]
  have hdropr : t.data.reverse.dropWhile jsWs = t.data.reverse := by
    rw [hrev, List.dropWhile_cons]
    simp [jsWs]
  have htrail : stripTrailFence t.data = t.data := by
    simp only [stripTrailFence]
    rw [hdropr, hrev, if_neg (take3_ne_fence _ _ (by decide))]
  have hdropl : t.data.dropWhile jsWs = t.data := by
    rw [hcs, List.dropWhile_cons]
    simp [jsWs]
  have htrim : jsTrimData t.data = t.data := by
    unfold jsTrimData
    rw [hdropl, hdropr, List.reverse_reverse]
  show (⟨jsTrimData (stripTrailFence (stripLeadFence t.data))⟩ : String) = t
  rw [hlead, htrail, htrim]

theorem lmStudioClean_fenced (t : String) (h1 : t.data.head? = some '{')
    (h2 : t.data.getLast? = some '}') : lmStudioClean (fenceWrap t) = t := by
  obtain ⟨cs2, hcs⟩ := exists_head_cons t h1
  obtain ⟨r2, hrev⟩ := exists_rev_cons t h2
  have hstep1 : stripLeadFence ((fenceWrap t).data)
      = List.dropWhile jsWs (t.data ++ '\n' :: backtick :: backtick :: backtick :: []) := rfl
  have hstep2 : List.dropWhile jsWs (t.data ++ '\n' :: backtick :: backtick :: backtick :: [])
      = t.data ++ '\n' :: backtick :: backtick :: backtick :: [] := by
    rw [hcs, List.cons_append, List.dropWhile_cons]
    simp [jsWs]
  have hrevapp : (t.data ++ '\n' :: backtick :: backtick :: backtick :: []).reverse
      = backtick :: backtick :: backtick :: '\n' :: t.data.reverse := by
    rw [List.reverse_append]
    rfl
  have hdw : List.dropWhile jsWs (backtick :: backtick :: backtick :: '\n' :: t.data.reverse)
      = backtick :: backtick :: backtick :: '\n' :: t.data.reverse := by
    rw [List.dropWhile_cons]
    simp [jsWs, backtick]
  have hstep3 : stripTrailFence (t.data ++ '\n' :: backtick :: backtick :: backtick :: [])
      = t.data ++ ['\n'] := by
    simp only [stripTrailFence]
    rw [hrevapp, hdw]
    have hcond : List.take 3 (backtick :: backtick :: backtick :: '\n' :: t.data.reverse)
        = "```".data := rfl
    rw [if_pos hcond]
    show ('\n' :: t.data.reverse).reverse = _
    rw [List.reverse_cons, List.reverse_reverse]
  have htrim : jsTrimData (t.data ++ ['\n']) = t.data := by
    unfold jsTrimData
    have hdl : List.dropWhile jsWs (t.data ++ ['\n']) = t.data ++ ['\n'] := by
      rw [hcs, List.cons_append, List.dropWhile_cons]
      simp [jsWs]
    rw [hdl]
    have hra : (t.data ++ ['\n']).reverse = '\n' :: t.data.reverse := by
      rw [List.reverse_append]; rfl
    rw [hra, List.dropWhile_cons, if_pos (show jsWs '\n' = true from rfl),
      hrev, List.dropWhile_cons, if_neg (show ¬ jsWs '}' = true from by decide),
      ← hrev, List.reverse_reverse]
  show (⟨jsTrimData (stripTrailFence (stripLeadFence (fenceWrap t).data))⟩ : String) = t
  rw [hstep1, hstep2, hstep3, htrim]

/-! ## Claim theorems -/

theorem wrapDispatch_fst (p : String) (pr : List NetCall × Except JsError Json) :
    (wrapDispatch p pr).1 = pr.1 := by
  rcases pr with ⟨trace, r⟩
  cases r <;> rfl

theorem wrapDispatch_error (p : String) (pr : List NetCall × Except JsError Json) (e : JsError)
    (h : (wrapDispatch p pr).2 = .error e) : e = .error (failMessage p) := by
  rcases pr with ⟨trace, r⟩
  cases r with
  | ok v => exact absurd h (by simp [wrapDispatch])
  | error e2 =>
    have hred : (wrapDispatch p (trace, Except.error e2)).2
        = Except.error (JsError.error (failMessage p)) := rfl
    rw [hred] at h
    exact (Except.error.inj h).symm

/-- Claim C1 (amended): the dispatcher `analyzeTranscript` performs no input
validation itself; empty-transcript rejection lives in the UI.  `handleReview`
invoked with a `null` or empty transcript sets the validation error and issues
no network call (and never invokes `analyzeTranscript`), and the analysis form
submits a review only when the trimmed checklist is non-empty. -/
theorem C1_amended_thm :
    ∀ (ai : GoogleGenAI) (net : Network) (checklist : String) (settings : LlmSettings),
    handleReview ai net none checklist settings
      = (some "A transcript must be available before analysis.", [], none)
    ∧ handleReview ai net (some []) checklist settings
      = (some "A transcript must be available before analysis.", [], none)
    ∧ (jsTrim checklist = "" → analysisPanelSubmitsReview checklist = false) := by
  intro ai net c s
  refine ⟨rfl, rfl, fun h => ?_⟩
  simp [analysisPanelSubmitsReview, h]

/-- Claim C1 witness: the amended theorem evaluated at a blank (whitespace)
checklist and concrete settings. -/
theorem C1_witness :
    handleReview ai0 netBlank none "   " settingsOllama
      = (some "A transcript must be available before analysis.", [], none)
    ∧ analysisPanelSubmitsReview "   " = false :=
  ⟨(C1_amended_thm ai0 netBlank "   " settingsOllama).1,
   (C1_amended_thm ai0 netBlank "   " settingsOllama).2.2 rfl⟩

/-- Claim C1 counterexample: `analyzeTranscript` called directly with an
empty transcript (or with a blank checklist) under Ollama settings issues one
network request and succeeds — it does not fail with a validation error before
any network call, contradicting the claim. -/
theorem C1_counterexample :
    (analyzeTranscript ai0 netOllamaOk [] "- Scalability" settingsOllama).1.length = 1
    ∧ (analyzeTranscript ai0 netOllamaOk [] "- Scalability" settingsOllama).2
        = .ok (.obj [("summary", .str "s"), ("actionItems", .arr []), ("missingPoints", .arr [])])
    ∧ (analyzeTranscript ai0 netOllamaOk [entryHello] "" settingsOllama).1.length = 1 :=
  ⟨rfl, rfl, rfl⟩

/-- Claim C2 (amended): a response body that is not valid JSON fails with a
parse error, but a body that parses is returned as-is with no structural
validation: for any JSON value `j` the message content parses to — including
values missing `summary`/`actionItems`/`missingPoints` — the OpenAI adapter
returns `j` successfully. -/
theorem C2_amended_thm (transcript : List TranscriptEntry) (checklist : String)
    (settings : LlmSettings) (body content : String) (j : Json)
    (hkey : ¬ settings.openAiApiKey = "")
    (hbody : jsonParse body = some (Json.obj [("choices",
      Json.arr [Json.obj [("message", Json.obj [("content", Json.str content)])]])]))
    (hcontent : jsonParse content = some j) :
    analyzeWithOpenAI ⟨fun _ => ⟨true, body⟩, fun _ _ => ⟨""⟩⟩ transcript checklist settings
      = ([.http (openAiRequest settings transcript checklist)], .ok j) := by
  unfold analyzeWithOpenAI
  rw [if_neg hkey, Prod.ext_iff]
  refine ⟨rfl, ?_⟩
  show (match jsonParse body with
        | none => Except.error JsError.syntaxError
        | some data =>
          match chatContentOf data with
          | Except.error e => Except.error e
          | Except.ok c2 => jsonParseCoerced c2) = Except.ok j
  rw [hbody]
  show (match jsonParse content with
        | none => Except.error JsError.syntaxError
        | some r => Except.ok r) = Except.ok j
  rw [hcontent]

/-- Claim C2 witness: the amended theorem evaluated at the spec's example
body, whose content is a JSON object with only a `summary` field. -/
theorem C2_witness :
    (¬ settingsOpenAi.openAiApiKey = "")
    ∧ analyzeWithOpenAI netOpenAiPartial [] "c" settingsOpenAi
        = ([.http (openAiRequest settingsOpenAi [] "c")],
           .ok (Json.obj [("summary", Json.str "ok")])) :=
  ⟨by decide,
   C2_amended_thm [] "c" settingsOpenAi openAiPartialBody "\x7b\"summary\":\"ok\"\x7d"
     (Json.obj [("summary", Json.str "ok")]) (by decide) rfl rfl⟩

/-- Claim C2 counterexample: with a 200 response whose content is the object
with only a `summary` field, the analysis call succeeds and returns that
partial object — which fails the structural requirement stated by the spec —
instead of failing with a parse/structural error. -/
theorem C2_counterexample :
    (analyzeWithOpenAI netOpenAiPartial [] "c" settingsOpenAi).2
      = .ok (Json.obj [("summary", Json.str "ok")])
    ∧ specRequiredShape (Json.obj [("summary", Json.str "ok")]) = false :=
  ⟨rfl, rfl⟩

/-- Claim C3 (amended): every failure surfaced by `analyzeTranscript` is the
uniform outer error naming the active provider; the underlying adapter
message is logged to the console but not preserved within the surfaced
error. -/
theorem C3_amended_thm (ai : GoogleGenAI) (net : Network) (transcript : List TranscriptEntry)
    (checklist : String) (settings : LlmSettings) (e : JsError)
    (h : (analyzeTranscript ai net transcript checklist settings).2 = .error e) :
    e = .error (failMessage settings.provider) :=
  wrapDispatch_error settings.provider _ e h

/-- Claim C3 witness: the amended theorem evaluated at an OpenAI
configuration failure. -/
theorem C3_witness :
    (analyzeTranscript ai0 netBlank [] "c" settingsOpenAiKeyBlank).2
      = .error (.error (failMessage "openai"))
    ∧ JsError.error (failMessage "openai")
      = .error (failMessage settingsOpenAiKeyBlank.provider) :=
  ⟨rfl, C3_amended_thm ai0 netBlank [] "c" settingsOpenAiKeyBlank _ rfl⟩

/-- Claim C3 counterexample: for a blank-key OpenAI failure the surfaced
error is the generic wrapper, and the adapter's original message
"OpenAI API Key is not configured." does not occur inside it, contradicting
the preservation half of the claim. -/
theorem C3_counterexample :
    (analyzeTranscript ai0 netBlank [] "c" settingsOpenAiKeyBlank).2
      = .error (.error (failMessage "openai"))
    ∧ ¬ (("OpenAI API Key is not configured.").data <:+: (failMessage "openai").data) :=
  ⟨rfl, by decide⟩

/-- Claim C4 (amended): for any provider string outside the four known ones,
`analyzeTranscript` issues zero network calls and fails — but with the
dispatcher's uniform wrapped error naming the provider; the internal
unsupported-provider error is caught and replaced. -/
theorem C4_amended_thm (ai : GoogleGenAI) (net : Network) (transcript : List TranscriptEntry)
    (checklist : String) (settings : LlmSettings)
    (h1 : ¬ settings.provider = "gemini") (h2 : ¬ settings.provider = "openai")
    (h3 : ¬ settings.provider = "ollama") (h4 : ¬ settings.provider = "lmstudio") :
    analyzeTranscript ai net transcript checklist settings
      = ([], .error (.error (failMessage settings.provider))) := by
  unfold analyzeTranscript
  rw [if_neg h1, if_neg h2, if_neg h3, if_neg h4]
  rfl

/-- Claim C4 witness: the amended theorem evaluated at provider
"carrier-pigeon". -/
theorem C4_witness :
    analyzeTranscript ai0 netBlank [] "c" settingsPigeon
      = ([], .error (.error (failMessage settingsPigeon.provider))) :=
  C4_amended_thm ai0 netBlank [] "c" settingsPigeon (by decide) (by decide) (by decide) (by decide)

/-- Claim C4 counterexample: with provider "carrier-pigeon" the call issues
zero network calls, but the error it fails with is the generic wrapper and
contains no unsupported-provider text, contradicting the error-shape half of
the claim. -/
theorem C4_counterexample :
    analyzeTranscript ai0 netBlank [] "c" settingsPigeon
      = ([], .error (.error (failMessage "carrier-pigeon")))
    ∧ ¬ (("Unsupported").data <:+: (failMessage "carrier-pigeon").data) :=
  ⟨rfl, by decide⟩

/-- Claim C5: each adapter validates its own required settings first and
fails with its descriptive configuration error, issuing zero network calls,
when the required field is blank: `openAiApiKey` for OpenAI, `ollamaUrl` or
`ollamaModel` for Ollama, `lmStudioUrl` for LM Studio. -/
theorem C5_thm (net : Network) (transcript : List TranscriptEntry) (checklist : String)
    (settings : LlmSettings) :
    (settings.openAiApiKey = "" →
      analyzeWithOpenAI net transcript checklist settings
        = ([], .error (.error "OpenAI API Key is not configured.")))
    ∧ (settings.ollamaUrl = "" ∨ settings.ollamaModel = "" →
      analyzeWithOllama net transcript checklist settings
        = ([], .error (.error "Ollama URL or model name is not configured.")))
    ∧ (settings.lmStudioUrl = "" →
      analyzeWithLmStudio net transcript checklist settings
        = ([], .error (.error "LM Studio URL is not configured."))) := by
  refine ⟨fun h => ?_, fun h => ?_, fun h => ?_⟩
  · unfold analyzeWithOpenAI; rw [if_pos h]
  · unfold analyzeWithOllama
    rcases h with h | h
    · rw [if_pos (by simp [h])]
    · rw [if_pos (by simp [h])]
  · unfold analyzeWithLmStudio; rw [if_pos h]

/-- Claim C5 witness: the three configuration gates evaluated at all-blank
settings. -/
theorem C5_witness :
    analyzeWithOpenAI netBlank [] "c" settingsAllBlank
      = ([], .error (.error "OpenAI API Key is not configured."))
    ∧ analyzeWithOllama netBlank [] "c" settingsAllBlank
      = ([], .error (.error "Ollama URL or model name is not configured."))
    ∧ analyzeWithLmStudio netBlank [] "c" settingsAllBlank
      = ([], .error (.error "LM Studio URL is not configured.")) :=
  ⟨(C5_thm netBlank [] "c" settingsAllBlank).1 rfl,
   (C5_thm netBlank [] "c" settingsAllBlank).2.1 (Or.inl rfl),
   (C5_thm netBlank [] "c" settingsAllBlank).2.2 rfl⟩

/-- Claim C6: with provider "ollama" and non-blank URL and model, the
dispatch issues exactly one request (so no other provider's endpoint is
touched), a POST to `{ollamaUrl}/api/chat` whose body is
`{model, messages:[{role:"user",content}], format:"json", stream:false}`. -/
theorem C6_thm (ai : GoogleGenAI) (net : Network) (transcript : List TranscriptEntry)
    (checklist : String) (settings : LlmSettings)
    (h1 : settings.provider = "ollama") (h2 : ¬ settings.ollamaUrl = "")
    (h3 : ¬ settings.ollamaModel = "") :
    (analyzeTranscript ai net transcript checklist settings).1
      = [NetCall.http (ollamaRequest settings transcript checklist)]
    ∧ (ollamaRequest settings transcript checklist).method = "POST"
    ∧ (ollamaRequest settings transcript checklist).url = settings.ollamaUrl ++ "/api/chat"
    ∧ (ollamaRequest settings transcript checklist).body = Json.obj [
        ("model", .str settings.ollamaModel),
        ("messages", .arr [.obj [("role", .str "user"),
          ("content", .str (ollamaUserPrompt transcript checklist))]]),
        ("format", .str "json"),
        ("stream", .bool false)] := by
  refine ⟨?_, rfl, rfl, rfl⟩
  unfold analyzeTranscript
  rw [wrapDispatch_fst, h1]
  rw [if_neg (by decide), if_neg (by decide), if_pos rfl]
  unfold analyzeWithOllama
  rw [if_neg (by simp [h2, h3])]

/-- Claim C6 witness: the dispatch theorem evaluated at the default Ollama
settings and a one-entry transcript. -/
theorem C6_witness :
    (analyzeTranscript ai0 netOllamaOk [entryHello] "- c" settingsOllama).1
      = [NetCall.http (ollamaRequest settingsOllama [entryHello] "- c")]
    ∧ (ollamaRequest settingsOllama [entryHello] "- c").url
      = settingsOllama.ollamaUrl ++ "/api/chat" :=
  ⟨(C6_thm ai0 netOllamaOk [entryHello] "- c" settingsOllama rfl (by decide) (by decide)).1,
   (C6_thm ai0 netOllamaOk [entryHello] "- c" settingsOllama rfl (by decide) (by decide)).2.2.1⟩

/-- Claim C7 (amended): the formatter is deterministic, maps the empty
sequence to the empty string, and — provided no entry field contains a
newline character — produces exactly N lines, the i-th line being
`[timestamp] speaker: text` of the i-th entry, in order, none dropped or
merged.  (An entry containing a newline spans several output lines, which is
what the amendment accounts for.) -/
theorem C7_amended_thm (l : List TranscriptEntry) :
    formatTranscript l = formatTranscript l
    ∧ (l = [] → formatTranscript l = "")
    ∧ ((∀ e ∈ l, entryNewlineFree e = true) → ¬ l = [] →
        splitNl (formatTranscript l).data = l.map (fun e => (formatEntry e).data)
        ∧ (splitNl (formatTranscript l).data).length = l.length) := by
  refine ⟨rfl, fun h => by rw [h]; rfl, fun hnl hne => ?_⟩
  have hmain : splitNl (formatTranscript l).data = (l.map formatEntry).map String.data := by
    unfold formatTranscript
    refine splitNl_joinSep _ (by simpa using hne) ?_
    intro s hs
    rcases List.mem_map.mp hs with ⟨e, he, rfl⟩
    exact noNl_formatEntry e (hnl e he)
  constructor
  · rw [hmain, List.map_map]
    rfl
  · rw [hmain]
    simp

/-- Claim C7 witness: the formatter theorem evaluated at the spec's
sample entry. -/
theorem C7_witness :
    entryNewlineFree entryScalability = true
    ∧ splitNl (formatTranscript [entryScalability]).data
        = [entryScalability].map (fun e => (formatEntry e).data) :=
  ⟨by decide, ((C7_amended_thm [entryScalability]).2.2 (by decide) (by decide)).1⟩

/-- Claim C7 counterexample: a single entry whose text contains a newline
formats to two lines, not one, contradicting the exactly-N-lines claim as
stated for every sequence. -/
theorem C7_counterexample :
    (splitNl (formatTranscript [entryMultiline]).data).length = 2
    ∧ ¬ (splitNl (formatTranscript [entryMultiline]).data).length = 1 :=
  ⟨rfl, by decide⟩

/-- Claim C8 (amended): for the LM Studio adapter's result-parsing step,
parsing the fenced response and parsing the bare JSON object text yield the
same result — the fence delimiters are stripped before `JSON.parse`.  (The
other adapters' parse steps do no fence stripping.) -/
theorem C8_amended_thm (t : String) (h1 : t.data.head? = some '{')
    (h2 : t.data.getLast? = some '}') :
    lmStudioParseContent (fenceWrap t) = lmStudioParseContent t := by
  unfold lmStudioParseContent
  rw [lmStudioClean_fenced t h1 h2, lmStudioClean_bare t h1 h2]

/-- Claim C8 witness: the fence-stripping theorem evaluated at the object
text with a single `summary` field. -/
theorem C8_witness :
    ("\x7b\"summary\":\"ok\"\x7d" : String).data.head? = some '{'
    ∧ lmStudioParseContent (fenceWrap "\x7b\"summary\":\"ok\"\x7d")
        = lmStudioParseContent "\x7b\"summary\":\"ok\"\x7d" :=
  ⟨rfl, C8_amended_thm "\x7b\"summary\":\"ok\"\x7d" rfl rfl⟩

/-- Claim C8 counterexample: the Gemini path's result-parsing step — one
of the paths the claim quantifies over — fails on the fenced input and
succeeds on the bare one, so they do not yield the same result for every
provider path. -/
theorem C8_counterexample :
    geminiParseText (fenceWrap "\x7b\x7d") = .error .syntaxError
    ∧ geminiParseText "\x7b\x7d" = .ok (.obj [])
    ∧ ¬ (Except.error JsError.syntaxError = (Except.ok (Json.obj []) : Except JsError Json)) :=
  ⟨rfl, rfl, fun h => Except.noConfusion h⟩

/-- Claim C9: the Gemini module reads the API key from the environment at
module load (process start); an absent (or empty, hence falsy) key makes
initialisation throw at once, before any function of the module — in
particular `analyzeTranscript` — can run. -/
theorem C9_thm :
    geminiModuleInit none = .error (.error "API_KEY environment variable not set")
    ∧ geminiModuleInit (some "") = .error (.error "API_KEY environment variable not set") :=
  ⟨rfl, rfl⟩

/-- Claim C10: the state-threaded tracing of `analyzeTranscript` returns the
transcript, checklist and settings unchanged whatever the provider, oracle or
outcome, and computes the same result as the direct embedding: the pipeline
never mutates its inputs. -/
theorem C10_thm (ai : GoogleGenAI) (net : Network) (transcript : List TranscriptEntry)
    (checklist : String) (settings : LlmSettings) :
    (analyzeTranscriptSt ai net transcript checklist settings).2
      = (transcript, checklist, settings)
    ∧ (analyzeTranscriptSt ai net transcript checklist settings).1
      = analyzeTranscript ai net transcript checklist settings := by
  rw [analyzeTranscriptSt_eq]
  exact ⟨rfl, rfl⟩

end MeetingAssistant
